import Mathlib

/-!
Verification of the park-passes value-resolution logic against its
natural-language specification.

The definitions below are a shallow embedding of the business logic in
`parkpasses/components/vouchers/models.py`, `parkpasses/components/vouchers/api.py`
and `parkpasses/components/passes/models.py`:

* money values (Django `DecimalField`, Python `Decimal`) are embedded as `ℚ`;
* calendar dates (`datetime.date`, `DateField`) are embedded as `ℤ` day numbers
  and timestamps (`datetime.datetime`, `DateTimeField`) as `ℤ` instants;
  `timezone.now().date()` becomes an explicit `today : ℤ` parameter and
  `datetime.datetime.now()` an explicit `now : ℤ` parameter;
* Django querysets over a table become explicit `List` values filtered with the
  same predicates the ORM lookups use (ORM date lookups against a `DateField`
  compare at date granularity, which the `ℤ` day numbers model directly);
* Python exceptions become `Except` error values;
* Python dynamic attribute lookup, where a claim depends on it, is embedded as a
  lookup in an explicit method table of the class involved.

Python's `round` and the default `decimal` context both use round-half-to-even
(banker's rounding); `pythonRound q` below is the integer Python's `round`
returns on the exact rational value `q`.

The file lists all embedded definitions and concrete example data first,
followed by all theorems.
-/

namespace ParkPasses

instance {ε α : Type} [DecidableEq ε] [DecidableEq α] : DecidableEq (Except ε α) :=
  fun x y =>
    match x, y with
    | .error a, .error b =>
      if h : a = b then isTrue (h ▸ rfl) else isFalse (fun hc => by cases hc; exact h rfl)
    | .ok a, .ok b =>
      if h : a = b then isTrue (h ▸ rfl) else isFalse (fun hc => by cases hc; exact h rfl)
    | .error _, .ok _ => isFalse (fun hc => by cases hc)
    | .ok _, .error _ => isFalse (fun hc => by cases hc)

/-- Round a rational to the nearest integer, ties to even: the semantics of
Python's built-in `round` and of `Decimal.quantize` under the default
`ROUND_HALF_EVEN` context. -/
def pythonRound (q : ℚ) : ℤ :=
  if q - ⌊q⌋ < 1/2 then ⌊q⌋
  else if 1/2 < q - ⌊q⌋ then ⌊q⌋ + 1
  else if ⌊q⌋ % 2 = 0 then ⌊q⌋ else ⌊q⌋ + 1

/-- `Decimal.quantize(Decimal("0.00"))` with the default rounding mode:
round to a multiple of 1/100, ties to even.
This embeds the `.quantize(Decimal("0.00"))` calls in
`parkpasses/components/passes/models.py`. -/
def quantize2 (q : ℚ) : ℚ := ((pythonRound (q * 100) : ℤ) : ℚ) / 100

/-- Rounding to 2 decimal places with round-half-UP semantics.
This definition follows the specification's words ("round-half-up semantics",
"a price ending in a half cent such as x.005 rounds up to x.01"); it exists
only to be compared with the code's rounding `quantize2`. -/
def roundHalfUp2 (q : ℚ) : ℚ := ((⌊q * 100 + 1/2⌋ : ℤ) : ℚ) / 100

/-- A row of the `VoucherTransaction` table: `credit` and `debit` are
2-decimal `DecimalField`s (embedded as `ℚ`).  The class defines no methods
that return a value (its Python source defines only the model fields and
`__str__`); see `voucherTransactionMethods`. -/
structure VoucherTransaction where
  credit : ℚ
  debit : ℚ
deriving DecidableEq, Repr

/-- The exceptions raised by `Voucher.remaining_balance`
(`parkpasses/components/vouchers/exceptions.py`). -/
inductive VoucherError where
  | remainingBalanceExceedsVoucherAmount
  | remainingVoucherBalanceLessThanZero
deriving DecidableEq, Repr

/-- A row of the `Voucher` table, with the fields the claims use.
`transactions` is the reverse foreign-key relation `voucher.transactions`. -/
structure Voucher where
  amount : ℚ
  expiry : ℤ
  code : String
  pin : String
  recipient_email : String
  processing_status : String
  in_cart : Bool
  transactions : List VoucherTransaction
deriving DecidableEq, Repr

/-- One step of the accumulation loop in `Voucher.remaining_balance`:
add the credit when it is positive, subtract the debit when it is positive. -/
def remainingBalanceStep (acc : ℚ) (t : VoucherTransaction) : ℚ :=
  let acc1 := if 0 < t.credit then acc + t.credit else acc
  if 0 < t.debit then acc1 - t.debit else acc1

/-- The loop of `Voucher.remaining_balance` before the range checks:
start from the face amount and fold `remainingBalanceStep` over the
voucher's transactions. -/
def remainingBalanceRaw (v : Voucher) : ℚ :=
  v.transactions.foldl remainingBalanceStep v.amount

/-- `Voucher.remaining_balance` (models.py lines 84-106): compute the running
balance, raise `RemainingBalanceExceedsVoucherAmountException` when it exceeds
the face amount, raise `RemainingVoucherBalanceLessThanZeroException` when it
is negative, and otherwise return it. -/
def Voucher.remaining_balance (v : Voucher) : Except VoucherError ℚ :=
  let rb := remainingBalanceRaw v
  if v.amount < rb then .error .remainingBalanceExceedsVoucherAmount
  else if rb < 0 then .error .remainingVoucherBalanceLessThanZero
  else .ok rb

/-- The balance formula as the specification words it: face amount plus the
sum of all positive transaction credits minus the sum of all positive
transaction debits. -/
def specRemainingBalance (v : Voucher) : ℚ :=
  v.amount
    + ((v.transactions.filter fun t => 0 < t.credit).map VoucherTransaction.credit).sum
    - ((v.transactions.filter fun t => 0 < t.debit).map VoucherTransaction.debit).sum

/-- The errors a request to `ValidateVoucherView.get` can propagate:
the queryset `.get` call raising `MultipleObjectsReturned`, or
`voucher.remaining_balance` raising one of its integrity exceptions. -/
inductive ApiError where
  | voucherError (e : VoucherError)
  | multipleObjectsReturned
deriving DecidableEq, Repr

/-- The JSON body `ValidateVoucherView.get` responds with:
`is_voucher_code_valid` plus, when valid, `balance_remaining`. -/
structure ValidateVoucherResponse where
  is_voucher_code_valid : Bool
  balance_remaining : Option ℚ
deriving DecidableEq, Repr

/-- The queryset filter of `ValidateVoucherView.get` (api.py lines 184-197):
`in_cart=False, recipient_email=email, code=code, pin=pin,
processing_status=Voucher.DELIVERED` (the string "D").
No condition on `expiry` appears in the filter. -/
def voucherMatchesQuery (email code pin : String) (v : Voucher) : Bool :=
  !v.in_cart && v.recipient_email == email && v.code == code && v.pin == pin
    && v.processing_status == "D"

/-- `ValidateVoucherView.get` (api.py lines 178-207) over the voucher table
`vouchers`: when `email`, `code` and `pin` are all truthy (non-empty) and a
voucher matching the filter exists, respond valid with its remaining balance;
otherwise respond invalid. -/
def validateVoucherGet (vouchers : List Voucher) (email code pin : String) :
    Except ApiError ValidateVoucherResponse :=
  if email != "" && code != "" && pin != "" then
    match vouchers.filter (voucherMatchesQuery email code pin) with
    | [] => .ok ⟨false, none⟩
    | [v] =>
      match v.remaining_balance with
      | .ok b => .ok ⟨true, some b⟩
      | .error e => .error (.voucherError e)
    | _ :: _ :: _ => .error .multipleObjectsReturned
  else .ok ⟨false, none⟩

/-- `Voucher.has_expired` (vouchers/models.py lines 78-82):
true when `now` is on or after the expiry timestamp. -/
def Voucher.has_expired (now : ℤ) (v : Voucher) : Bool :=
  v.expiry ≤ now

/-- A row of the `PassTypePricingWindow` table: primary key `id`, foreign key
`pass_type`, a `date_start` `DateField` and a nullable `date_expiry`
`DateField` (`none` marks the default/open-ended window). -/
structure PricingWindow where
  id : ℕ
  pass_type : ℕ
  name : String
  date_start : ℤ
  date_expiry : Option ℤ
deriving DecidableEq, Repr

/-- A row of the `PassTypePricingWindowOption` table: foreign key
`pricing_window`, plus name, duration in days and price. -/
structure PricingOption where
  pricing_window : ℕ
  name : String
  duration : ℤ
  price : ℚ
deriving DecidableEq, Repr

/-- The database state the pricing-window logic queries: the set of existing
`PassType` primary keys, the pricing-window rows and the option rows. -/
structure PassDb where
  pass_types : List ℕ
  windows : List PricingWindow
  options : List PricingOption
deriving DecidableEq, Repr

/-- The failures pricing-window operations can raise: Django's
`ObjectDoesNotExist` and `MultipleObjectsReturned` from `.get()`,
`ValidationError` from `save()`, and Python's `AttributeError`. -/
inductive WindowError where
  | doesNotExist
  | multipleObjectsReturned
  | validationError (msg : String)
  | attributeError
deriving DecidableEq, Repr

/-- `PassTypePricingWindow.objects.filter(pass_type=pass_type)`. -/
def windowsFor (db : PassDb) (pt : ℕ) : List PricingWindow :=
  db.windows.filter fun w => w.pass_type == pt

/-- The queryset
`exclude(date_expiry__isnull=True).filter(pass_type=..., date_start__lte=now, date_expiry__gte=now)`
of `get_current_options_by_pass_type_id`: the non-default windows of the pass
type whose dates satisfy `date_start ≤ today` and `today ≤ date_expiry`
(Django adapts the `datetime` argument of a `DateField` lookup to its date,
so both comparisons are at date granularity). -/
def currentNonDefault (db : PassDb) (pt : ℕ) (today : ℤ) : List PricingWindow :=
  (windowsFor db pt).filter fun w =>
    match w.date_expiry with
    | none => false
    | some e => decide (w.date_start ≤ today) && decide (today ≤ e)

/-- `PassTypePricingWindowOption.objects.filter(pricing_window=w)`. -/
def optionsByWindow (db : PassDb) (wid : ℕ) : List PricingOption :=
  db.options.filter fun o => o.pricing_window == wid

/-- The `order_by("date_start").last()` step: fold over the remaining rows,
replacing the current best whenever a row's start date is at least as late
(so the latest start date wins; among equal start dates the row the database
returns last wins, which the list order models). -/
def latestStartAux (a : PricingWindow) (l : List PricingWindow) : PricingWindow :=
  l.foldl (fun best w => if best.date_start ≤ w.date_start then w else best) a

/-- `PassTypePricingWindowOption.get_current_options_by_pass_type_id`
(passes/models.py lines 262-328), returning the option list together with a
flag recording whether the duplicate-current-window warning was logged:
* unknown pass type → empty list;
* no windows for the pass type → empty list (logged critical, still `[]`);
* exactly one window → its options (assumed to be the default);
* otherwise count the currently valid non-default windows:
  none → the options of the window with `date_expiry` null (a `.get` that
  raises when zero or several such windows exist); one → its options;
  several → log a warning and take the one with the latest start date. -/
def getCurrentOptions (db : PassDb) (today : ℤ) (pt : ℕ) :
    Except WindowError (List PricingOption × Bool) :=
  if pt ∈ db.pass_types then
    match windowsFor db pt with
    | [] => .ok ([], false)
    | [w] => .ok (optionsByWindow db w.id, false)
    | _ :: _ :: _ =>
      match currentNonDefault db pt today with
      | [] =>
        match (windowsFor db pt).filter (fun w => w.date_expiry.isNone) with
        | [] => .error .doesNotExist
        | [w] => .ok (optionsByWindow db w.id, false)
        | _ :: _ :: _ => .error .multipleObjectsReturned
      | [w] => .ok (optionsByWindow db w.id, false)
      | w :: rest => .ok (optionsByWindow db (latestStartAux w rest).id, true)
  else .ok ([], false)

/-- Method table of Python's `datetime.date` (the runtime type of a Django
`DateField` value): it defines no method named `date` (only
`datetime.datetime` does), so an attribute access `value.date` on it raises
`AttributeError`. -/
def dateMethodNames : List String :=
  ["replace", "timetuple", "toordinal", "weekday", "isoweekday",
   "isocalendar", "isoformat", "ctime", "strftime"]

/-- The expression `self.date_expiry.date()` in
`PassTypePricingWindow.save` (passes/models.py line 174): `date` is absent
from `datetime.date`'s method table, so the lookup raises `AttributeError`
instead of producing the date. -/
def dateDotDate (d : ℤ) : Except WindowError ℤ :=
  if dateMethodNames.contains "date" then .ok d else .error .attributeError

/-- `PassTypePricingWindow.save` (passes/models.py lines 149-177) acting on the
pricing-window table `db` on day `today`:
* saving a default window (null expiry) is rejected when another default
  window for the same pass type exists, or when its start date is in the
  future; otherwise the row is written;
* saving a non-default window is rejected when its start date does not precede
  its expiry date; otherwise the code evaluates `self.date_expiry.date()`,
  which fails the attribute lookup (see `dateDotDate`); had it produced the
  expiry date, an expiry on or before `today` would be rejected and any other
  row written. -/
def PricingWindow.save (today : ℤ) (db : List PricingWindow) (w : PricingWindow) :
    Except WindowError (List PricingWindow) :=
  match w.date_expiry with
  | none =>
    if 0 < (db.filter fun x =>
        x.pass_type == w.pass_type && x.date_expiry.isNone && x.id != w.id).length then
      .error (.validationError
        "There can only be one default pricing window for a pass type.")
    else if today < w.date_start then
      .error (.validationError
        "The default pricing window start date must be in the past.")
    else .ok ((db.filter fun x => x.id != w.id) ++ [w])
  | some e =>
    if e ≤ w.date_start then
      .error (.validationError "The start date must occur before the expiry date.")
    else
      match dateDotDate e with
      | .error err => .error err
      | .ok ed =>
        if ed ≤ today then
          .error (.validationError "The expiry date must be in the future.")
        else .ok ((db.filter fun x => x.id != w.id) ++ [w])

/-- The four values `Pass.status` can report. -/
inductive PassStatus where
  | future
  | current
  | expired
  | cancelled
deriving DecidableEq, Repr

/-- Python errors the price-resolution chain can raise. -/
inductive PyError where
  | attributeError
deriving DecidableEq, Repr

/-- A `Pass` row together with the related rows its value-resolution methods
dereference: the selected option's `duration` and `price`, the stored
start/expiry dates, the optional attached `concession_usage` and
`discount_code_usage` (each embedded as the `discount_as_amount` function of
the related concession / discount code, which is all the price chain calls on
them), the optional attached `voucher_transaction` row and whether a
`cancellation` row is attached. -/
structure PassRec where
  duration : ℤ
  price : ℚ
  date_start : ℤ
  date_expiry : ℤ
  concession_discount_as_amount : Option (ℚ → ℚ)
  discount_code_discount_as_amount : Option (ℚ → ℚ)
  voucher_transaction : Option VoucherTransaction
  cancellation : Bool

/-- `Pass.status` (passes/models.py lines 572-581): cancelled when a
cancellation row is attached; otherwise future when the start date is after
today, expired when the expiry date is on or before today, else current. -/
def PassRec.status (today : ℤ) (p : PassRec) : PassStatus :=
  if p.cancellation then .cancelled
  else if today < p.date_start then .future
  else if p.date_expiry ≤ today then .expired
  else .current

/-- `Pass.pro_rata_refund_percentage` (passes/models.py lines 600-609):
100 when the start date is today or later, 0 when the expiry date is today or
earlier, and otherwise `round(days_remaining * 100 / duration)` with Python's
`round`.  (Python evaluates the division in binary floating point; on the
values this method can produce, the float result rounds to the same integer
as the exact rational, ties included, since exact-half quotients are exactly
representable, so the `ℚ` computation is faithful.) -/
def PassRec.pro_rata_refund_percentage (today : ℤ) (p : PassRec) : ℤ :=
  if today ≤ p.date_start then 100
  else if p.date_expiry ≤ today then 0
  else
    let days_used := today - p.date_start
    let days_remaining := p.duration - days_used
    pythonRound ((days_remaining * 100 : ℤ) / (p.duration : ℚ))

/-- `Pass.price_after_concession_applied` (passes/models.py lines 520-527):
when a concession usage is attached, subtract
`concession.discount_as_amount(price)` from the option price. -/
def PassRec.price_after_concession_applied (p : PassRec) : ℚ :=
  match p.concession_discount_as_amount with
  | some discount_as_amount => p.price - discount_as_amount p.price
  | none => p.price

/-- `Pass.price_after_discount_code_applied` (passes/models.py lines 529-538):
when a discount-code usage is attached, subtract
`discount_code.discount_as_amount(price_after_concession_applied)`. -/
def PassRec.price_after_discount_code_applied (p : PassRec) : ℚ :=
  match p.discount_code_discount_as_amount with
  | some discount_as_amount =>
    p.price_after_concession_applied - discount_as_amount p.price_after_concession_applied
  | none => p.price_after_concession_applied

/-- Method table of `VoucherTransaction` (vouchers/models.py lines 147-169):
the class body declares only the model fields, the manager and `__str__`;
it defines no method named `balance`. -/
def voucherTransactionMethods : List (String × (VoucherTransaction → ℚ)) := []

/-- The expression `self.voucher_transaction.balance()` in
`Pass.price_after_voucher_applied` (passes/models.py line 543): look up the
name `balance` in `VoucherTransaction`'s method table and call it; the lookup
finds nothing, so it raises `AttributeError`. -/
def voucherTransactionBalance (vt : VoucherTransaction) : Except PyError ℚ :=
  match voucherTransactionMethods.find? (fun m => m.1 == "balance") with
  | some m => .ok (m.2 vt)
  | none => .error .attributeError

/-- `Pass.price_after_voucher_applied` (passes/models.py lines 540-545):
when a voucher transaction is attached, add its `balance()` to the price after
discount codes; otherwise return the price after discount codes. -/
def PassRec.price_after_voucher_applied (p : PassRec) : Except PyError ℚ :=
  match p.voucher_transaction with
  | some vt =>
    match voucherTransactionBalance vt with
    | .ok b => .ok (p.price_after_discount_code_applied + b)
    | .error e => .error e
  | none => .ok p.price_after_discount_code_applied

/-- `Pass.price_after_all_discounts` (passes/models.py lines 547-550):
`price_after_voucher_applied.quantize(Decimal("0.00"))`. -/
def PassRec.price_after_all_discounts (p : PassRec) : Except PyError ℚ :=
  (p.price_after_voucher_applied).map quantize2

/-- `Pass.gst` (passes/models.py lines 556-562).  The Python code computes the
factor `Decimal(100 / (100 + int(settings.LEDGER_GST)))` as a binary float of
the configured rate; the factor is abstracted here as the parameter
`gst_calculation`, which no claim constrains. -/
def PassRec.gst (gst_calculation : ℚ) (p : PassRec) : Except PyError ℚ :=
  (p.price_after_all_discounts).map fun a => quantize2 (a - a * gst_calculation)

/-- `Pass.pro_rata_refund_amount` (passes/models.py lines 611-615):
the final price times `Decimal(percentage / 100)`, quantized to 2 decimals.
(The `percentage / 100` float conversion is embedded as the exact rational;
no claim depends on its low bits.) -/
def PassRec.pro_rata_refund_amount (today : ℤ) (p : PassRec) : Except PyError ℚ :=
  (p.price_after_all_discounts).map fun a =>
    quantize2 (a * ((p.pro_rata_refund_percentage today : ℤ) / (100 : ℚ)))

/-- A concrete voucher: face amount 50, two debits of 10 and 15. -/
def voucherEx : Voucher :=
  ⟨50, 100, "ABCD1234", "123456", "someone@example.com", "D", false,
   [⟨0, 10⟩, ⟨0, 15⟩]⟩

/-- A concrete delivered, non-cart voucher whose expiry (day 10) is long past
at `now = 99`. -/
def expiredVoucherEx : Voucher :=
  ⟨50, 10, "CODE1234", "654321", "holder@example.com", "D", false, []⟩

/-- A concrete pass: option duration 14 days, started 7 days ago (start day 0,
today day 7), expiry day 14. -/
def passHalfwayEx : PassRec :=
  ⟨14, 100, 0, 14, none, none, none, false⟩

/-- A concrete cancelled pass whose expiry (day 14) is still in the future at
today = day 5. -/
def cancelledPassEx : PassRec :=
  ⟨14, 100, 0, 14, none, none, none, true⟩

/-- The at-most-one-default invariant of the pricing-window table: for every
pass type, at most one window has a null expiry. -/
def atMostOneDefault (db : List PricingWindow) : Prop :=
  ∀ pt : ℕ,
    (db.filter fun x => x.pass_type == pt && x.date_expiry.isNone).length ≤ 1

/-- Two default (null-expiry) windows for pass type 1. -/
def defaultWindowEx : PricingWindow := ⟨1, 1, "Default", 0, none⟩

/-- A second default window for pass type 1, distinct primary key. -/
def secondDefaultEx : PricingWindow := ⟨2, 1, "Summer Default", 0, none⟩

/-- The non-default windows of a pass type whose half-open interval
[start, expiry) contains the query date.  This definition follows the
specification's words ("[start, expiry) interval contains `at_instant`"); it
exists only to be compared with the code's closed-interval filter
`currentNonDefault`. -/
def halfOpenMatches (db : PassDb) (pt : ℕ) (today : ℤ) : List PricingWindow :=
  (windowsFor db pt).filter fun w =>
    match w.date_expiry with
    | none => false
    | some e => decide (w.date_start ≤ today) && decide (today < e)

/-- Window A for the C2 counterexample: [start 0, expiry 10]. -/
def c2winA : PricingWindow := ⟨1, 1, "Window A", 0, some 10⟩

/-- Window B for the C2 counterexample: [start 1, expiry 10]. -/
def c2winB : PricingWindow := ⟨2, 1, "Window B", 1, some 10⟩

/-- Window C for the C2 counterexample: [start 2, expiry 5]; on day 5 it is
outside [start, expiry) but inside the code's closed interval. -/
def c2winC : PricingWindow := ⟨3, 1, "Window C", 2, some 5⟩

def c2optA : PricingOption := ⟨1, "5 days", 5, 10⟩

def c2optB : PricingOption := ⟨2, "5 days", 5, 20⟩

def c2optC : PricingOption := ⟨3, "5 days", 5, 30⟩

def c2db : PassDb := ⟨[1], [c2winA, c2winB, c2winC], [c2optA, c2optB, c2optC]⟩

/-- A database with a default window plus two overlapping non-default windows
(starts day 0 and day 3, both containing day 5). -/
def c2wdb : PassDb :=
  ⟨[1],
   [⟨1, 1, "Default", 0, none⟩, ⟨2, 1, "Autumn", 0, some 10⟩,
    ⟨3, 1, "Spring", 3, some 10⟩],
   [⟨2, "5 days", 5, 10⟩, ⟨3, "5 days", 5, 20⟩]⟩

/-- A pass type whose only pricing window is non-default (expiry day 10). -/
def c3db : PassDb :=
  ⟨[1], [⟨1, 1, "Only Window", 0, some 10⟩], [⟨1, "5 days", 5, 50⟩]⟩

/-- Two non-default windows, neither containing day 15 (one expired at day
10, one starting day 20), and no default window. -/
def c3wdb : PassDb :=
  ⟨[1], [⟨1, 1, "Past", 0, some 10⟩, ⟨2, 1, "Future", 20, some 30⟩], []⟩

/-- A pass whose only discount is a 50 percent concession on a price of
10.01, so the price after discounts is 5.005, a half-cent tie. -/
def concessionHalfEx : PassRec :=
  ⟨5, 1001/100, 0, 5, some (fun price => price / 2), none, none, false⟩

/-- A pass with no discounts and the option price 0.47. -/
def plainPassEx : PassRec :=
  ⟨5, 47/100, 0, 5, none, none, none, false⟩

/-- A pass with an attached voucher transaction (credit 0, debit 10). -/
def voucherPassEx : PassRec :=
  ⟨5, 10, 0, 5, none, none, some ⟨0, 10⟩, false⟩

/-! ## Theorems -/

theorem remainingBalanceRaw_foldl (l : List VoucherTransaction) (a : ℚ) :
    l.foldl remainingBalanceStep a =
      a + ((l.filter fun t => 0 < t.credit).map VoucherTransaction.credit).sum
        - ((l.filter fun t => 0 < t.debit).map VoucherTransaction.debit).sum := by
  induction l generalizing a with
  | nil => simp
  | cons t l ih =>
    rw [List.foldl_cons, ih]
    by_cases hc : 0 < t.credit <;> by_cases hd : 0 < t.debit <;>
      simp [remainingBalanceStep, hc, hd, List.filter_cons] <;> ring

theorem remainingBalanceRaw_eq_spec (v : Voucher) :
    remainingBalanceRaw v = specRemainingBalance v := by
  rw [remainingBalanceRaw, remainingBalanceRaw_foldl, specRemainingBalance]

/-- C1: for every voucher, the remaining balance equals the face amount plus
the sum of all positive transaction credits minus the sum of all positive
transaction debits; when that remainder exceeds the face amount the operation
raises the balance-exceeds-voucher-amount integrity error, when it is below
zero it raises the balance-below-zero integrity error, and otherwise the
returned value lies in the closed interval [0, voucher.amount]. -/
theorem C1_remaining_balance (v : Voucher) :
    (v.amount < specRemainingBalance v →
      v.remaining_balance = .error .remainingBalanceExceedsVoucherAmount) ∧
    (specRemainingBalance v ≤ v.amount → specRemainingBalance v < 0 →
      v.remaining_balance = .error .remainingVoucherBalanceLessThanZero) ∧
    (0 ≤ specRemainingBalance v → specRemainingBalance v ≤ v.amount →
      v.remaining_balance = .ok (specRemainingBalance v)) ∧
    (∀ b, v.remaining_balance = .ok b → 0 ≤ b ∧ b ≤ v.amount) := by
  have hs := remainingBalanceRaw_eq_spec v
  refine ⟨fun h => ?_, fun h1 h2 => ?_, fun h0 h1 => ?_, fun b hb => ?_⟩
  · simp [Voucher.remaining_balance, hs, h]
  · simp [Voucher.remaining_balance, hs, not_lt.mpr h1, h2]
  · simp [Voucher.remaining_balance, hs, not_lt.mpr h1, not_lt.mpr h0]
  · simp only [Voucher.remaining_balance, hs] at hb
    split_ifs at hb with hgt hlt
    injection hb with hb
    subst hb
    exact ⟨not_lt.mp hlt, not_lt.mp hgt⟩

theorem voucherEx_specRemainingBalance : specRemainingBalance voucherEx = 25 := by
  norm_num [specRemainingBalance, voucherEx, List.filter_cons]

theorem C1_remaining_balance_witness :
    voucherEx.remaining_balance = .ok 25 ∧ (0 : ℚ) ≤ 25 ∧ (25 : ℚ) ≤ 50 := by
  have h := (C1_remaining_balance voucherEx).2.2.1
    (by rw [voucherEx_specRemainingBalance]; norm_num)
    (by rw [voucherEx_specRemainingBalance]; show (25 : ℚ) ≤ 50; norm_num)
  rw [voucherEx_specRemainingBalance] at h
  exact ⟨h, by norm_num, by norm_num⟩

/-- C10: the voucher validation endpoint does not check the voucher's expiry
timestamp: for every voucher that is not in a cart, has processing status
delivered, and matches the supplied email, code and pin (the unique such
match), the endpoint reports the voucher as valid and returns its remaining
balance even when the voucher has already expired. -/
theorem C10_validate_ignores_expiry (vouchers : List Voucher)
    (email code pin : String) (v : Voucher) (b : ℚ) (now : ℤ)
    (hemail : email ≠ "") (hcode : code ≠ "") (hpin : pin ≠ "")
    (hfilter : vouchers.filter (voucherMatchesQuery email code pin) = [v])
    (_hexpired : v.has_expired now = true)
    (hbal : v.remaining_balance = .ok b) :
    validateVoucherGet vouchers email code pin = .ok ⟨true, some b⟩ := by
  have hcond : (email != "" && code != "" && pin != "") = true := by
    simp [bne_iff_ne, hemail, hcode, hpin]
  simp [validateVoucherGet, hcond, hfilter, hbal]

theorem pythonRound_intCast (n : ℤ) : pythonRound (n : ℚ) = n := by
  rw [pythonRound]
  norm_num

/-- C4: for every pass whose stored expiry is start + duration (the invariant
`save` maintains) with a positive duration, `pro_rata_refund_percentage`
returns 100 when the pass has not yet started, 0 when it has already expired,
and otherwise `round((duration − days_elapsed) * 100 / duration)`. -/
theorem C4_pro_rata_refund_percentage (p : PassRec) (today : ℤ)
    (hexp : p.date_expiry = p.date_start + p.duration) (hdur : 0 < p.duration) :
    (today < p.date_start → p.pro_rata_refund_percentage today = 100) ∧
    (p.date_expiry ≤ today → p.pro_rata_refund_percentage today = 0) ∧
    (p.date_start ≤ today → today < p.date_expiry →
      p.pro_rata_refund_percentage today =
        pythonRound ((((p.duration - (today - p.date_start)) * 100 : ℤ) : ℚ)
          / (p.duration : ℚ))) := by
  refine ⟨fun h => ?_, fun h => ?_, fun hs h2 => ?_⟩
  · simp [PassRec.pro_rata_refund_percentage, le_of_lt h]
  · have hns : ¬ today ≤ p.date_start := by omega
    simp [PassRec.pro_rata_refund_percentage, hns, h]
  · rcases lt_or_eq_of_le hs with hlt | heq
    · have hns : ¬ today ≤ p.date_start := not_le.mpr hlt
      have hne : ¬ p.date_expiry ≤ today := not_le.mpr h2
      simp [PassRec.pro_rata_refund_percentage, hns, hne]
    · have hts : today ≤ p.date_start := le_of_eq heq.symm
      have hdq : (p.duration : ℚ) ≠ 0 := Int.cast_ne_zero.mpr (by omega)
      have hcast : (((p.duration - (today - p.date_start)) * 100 : ℤ) : ℚ)
          / (p.duration : ℚ) = ((100 : ℤ) : ℚ) := by
        rw [← heq]
        push_cast
        field_simp
      rw [hcast, pythonRound_intCast]
      simp [PassRec.pro_rata_refund_percentage, hts]

theorem C4_pro_rata_refund_percentage_witness :
    passHalfwayEx.pro_rata_refund_percentage 7 = 50 := by
  have h := (C4_pro_rata_refund_percentage passHalfwayEx 7 (by decide) (by decide)).2.2
    (by decide) (by decide)
  rw [h]
  have hc : (((passHalfwayEx.duration - (7 - passHalfwayEx.date_start)) * 100 : ℤ) : ℚ)
      / (passHalfwayEx.duration : ℚ) = ((50 : ℤ) : ℚ) := by
    norm_num [passHalfwayEx]
  rw [hc, pythonRound_intCast]

/-- C5: for every pass with an attached cancellation record, `status` returns
CANCELLED regardless of the start and expiry dates; for every pass without a
cancellation, `status` returns FUTURE when the start date is after today,
EXPIRED when the expiry date is on or before today, and CURRENT otherwise. -/
theorem C5_status (p : PassRec) (today : ℤ) :
    (p.cancellation = true → p.status today = .cancelled) ∧
    (p.cancellation = false → today < p.date_start → p.status today = .future) ∧
    (p.cancellation = false → p.date_start ≤ today → p.date_expiry ≤ today →
      p.status today = .expired) ∧
    (p.cancellation = false → p.date_start ≤ today → today < p.date_expiry →
      p.status today = .current) := by
  refine ⟨fun hc => ?_, fun hc hf => ?_, fun hc hs he => ?_, fun hc hs he => ?_⟩
  · simp [PassRec.status, hc]
  · simp [PassRec.status, hc, hf]
  · simp [PassRec.status, hc, not_lt.mpr hs, he]
  · simp [PassRec.status, hc, not_lt.mpr hs, not_le.mpr he]

theorem C5_status_witness :
    cancelledPassEx.status 5 = .cancelled ∧ (5 : ℤ) < cancelledPassEx.date_expiry :=
  ⟨(C5_status cancelledPassEx 5).1 rfl, by decide⟩

theorem C10_validate_ignores_expiry_witness :
    validateVoucherGet [expiredVoucherEx] "holder@example.com" "CODE1234" "654321"
      = .ok ⟨true, some 50⟩ := by
  have hbal : expiredVoucherEx.remaining_balance = .ok 50 := by
    simp [Voucher.remaining_balance, remainingBalanceRaw, expiredVoucherEx]
  exact C10_validate_ignores_expiry [expiredVoucherEx]
    "holder@example.com" "CODE1234" "654321" expiredVoucherEx 50 99
    (by decide) (by decide) (by decide) (by decide) (by decide) hbal

theorem dateDotDate_eq (d : ℤ) : dateDotDate d = .error .attributeError := rfl

theorem save_nondefault_never_ok (today : ℤ) (db : List PricingWindow)
    (w : PricingWindow) (e : ℤ) (hw : w.date_expiry = some e)
    (db' : List PricingWindow) : PricingWindow.save today db w ≠ .ok db' := by
  intro hok
  rcases le_or_lt e w.date_start with hle | hlt
  · simp [PricingWindow.save, hw, hle] at hok
  · simp [PricingWindow.save, hw, not_le.mpr hlt, dateDotDate_eq] at hok

theorem length_filter_and_le {α : Type} (B A : α → Bool) (l : List α) :
    (l.filter fun x => B x && A x).length ≤ (l.filter B).length := by
  induction l with
  | nil => simp
  | cons x xs ih =>
    cases hB : B x <;> cases hA : A x <;>
      simp [List.filter_cons, hB, hA] <;> omega

/-- C6: saving a pricing window with a null expiry while another null-expiry
window exists for the same pass type is rejected with a validation error, and
the at-most-one-default invariant is preserved by every successful save. -/
theorem C6_default_window_uniqueness (today : ℤ) (db : List PricingWindow)
    (w : PricingWindow) :
    (w.date_expiry = none →
      (∃ x ∈ db, x.pass_type = w.pass_type ∧ x.date_expiry = none ∧ x.id ≠ w.id) →
      ∃ msg, PricingWindow.save today db w = .error (.validationError msg)) ∧
    (∀ db', PricingWindow.save today db w = .ok db' →
      atMostOneDefault db → atMostOneDefault db') := by
  constructor
  · intro hnone hex
    obtain ⟨x, hmem, hpt, hexp, hid⟩ := hex
    have hmemf : x ∈ db.filter (fun y =>
        y.pass_type == w.pass_type && y.date_expiry.isNone && y.id != w.id) := by
      refine List.mem_filter.mpr ⟨hmem, ?_⟩
      simp [hpt, hexp, hid]
    have hpos := List.length_pos_of_mem hmemf
    refine ⟨"There can only be one default pricing window for a pass type.", ?_⟩
    simp [PricingWindow.save, hnone, hpos]
  · intro db' hok hinv
    cases hw : w.date_expiry with
    | some e => exact absurd hok (save_nondefault_never_ok today db w e hw db')
    | none =>
      simp only [PricingWindow.save, hw] at hok
      split_ifs at hok with hdup hstart
      injection hok with hok
      subst hok
      intro pt
      rw [List.filter_append, List.length_append]
      by_cases hpt : pt = w.pass_type
      · have hlen0 : (db.filter fun x =>
            x.pass_type == w.pass_type && x.date_expiry.isNone && x.id != w.id).length
            = 0 := by
          omega
        have hnil := List.length_eq_zero.mp hlen0
        have hfilnil : ((db.filter fun x => x.id != w.id).filter
            fun x => x.pass_type == pt && x.date_expiry.isNone) = [] := by
          rw [List.filter_filter]
          refine List.filter_eq_nil_iff.mpr fun x hx hcontra => ?_
          have hx' := List.filter_eq_nil_iff.mp hnil x hx
          apply hx'
          subst hpt
          revert hcontra
          cases x.pass_type == w.pass_type <;> cases x.date_expiry.isNone <;>
            cases x.id != w.id <;> simp
        rw [hfilnil]
        have hw1 : (([w].filter fun x =>
            x.pass_type == pt && x.date_expiry.isNone)).length ≤ 1 := by
          simpa using List.length_filter_le _ [w]
        simpa using hw1
      · have hw1 : (([w].filter fun x =>
            x.pass_type == pt && x.date_expiry.isNone)).length = 0 := by
          have hne : (w.pass_type == pt) = false := by
            simp [Ne.symm hpt]
          simp [List.filter_cons, hne]
        rw [hw1]
        have hle : ((db.filter fun x => x.id != w.id).filter
            fun x => x.pass_type == pt && x.date_expiry.isNone).length ≤
            (db.filter fun x => x.pass_type == pt && x.date_expiry.isNone).length := by
          rw [List.filter_filter]
          exact length_filter_and_le
            (fun x : PricingWindow => x.pass_type == pt && x.date_expiry.isNone)
            (fun x : PricingWindow => x.id != w.id) db
        have hinvpt := hinv pt
        omega

theorem C6_default_window_uniqueness_witness :
    ∃ msg, PricingWindow.save 0 [defaultWindowEx] secondDefaultEx
      = .error (.validationError msg) := by
  refine (C6_default_window_uniqueness 0 [defaultWindowEx] secondDefaultEx).1 rfl
    ⟨defaultWindowEx, ?_, ?_, ?_, ?_⟩
  · simp
  · rfl
  · rfl
  · decide

/-- C7 (code bug): a non-default pricing window whose start date (day 6)
precedes its expiry date (day 15), with the expiry in the future at save time
(today = day 5), is the case the specification says must save successfully;
the code instead raises `AttributeError`, because line 174 of
passes/models.py calls `.date()` on `self.date_expiry`, which is a
`datetime.date` (the value of a `DateField`) and has no such method. -/
theorem C7_valid_nondefault_save_raises_attribute_error :
    PricingWindow.save 5 [] ⟨1, 1, "Holiday Special", 6, some 15⟩
      = .error .attributeError := by
  rfl

theorem latestStartAux_eq_of_max :
    ∀ (l : List PricingWindow) (a w : PricingWindow),
      (w = a ∨ w ∈ l) →
      (∀ x, (x = a ∨ x ∈ l) → x ≠ w → x.date_start < w.date_start) →
      latestStartAux a l = w := by
  intro l
  induction l with
  | nil =>
    intro a w hmem _
    rcases hmem with h | h
    · exact h.symm
    · simp at h
  | cons x xs ih =>
    intro a w hmem hmax
    show latestStartAux (if a.date_start ≤ x.date_start then x else a) xs = w
    apply ih
    · rcases hmem with h | h
      · by_cases hax : a.date_start ≤ x.date_start
        · rw [if_pos hax]
          by_cases hxw : x = w
          · exact Or.inl hxw.symm
          · exfalso
            have hlt := hmax x (Or.inr (List.mem_cons_self x xs)) hxw
            subst h
            omega
        · rw [if_neg hax]
          exact Or.inl h
      · rcases List.mem_cons.mp h with h1 | h2
        · by_cases hax : a.date_start ≤ x.date_start
          · rw [if_pos hax]
            exact Or.inl h1
          · by_cases haw : a = w
            · rw [if_neg hax]
              exact Or.inl haw.symm
            · exfalso
              have hlt := hmax a (Or.inl rfl) haw
              subst h1
              omega
        · exact Or.inr h2
    · intro y hy hne
      apply hmax y _ hne
      rcases hy with h | h
      · by_cases hax : a.date_start ≤ x.date_start
        · rw [if_pos hax] at h
          exact Or.inr (h ▸ List.mem_cons_self x xs)
        · rw [if_neg hax] at h
          exact Or.inl h
      · exact Or.inr (List.mem_cons_of_mem x h)

/-- C2 counterexample: on day 5 the pass type has exactly two non-default
windows whose [start, expiry) interval contains the instant (A and B), and B
has the latest start date among them; the claim therefore demands B's
options, but the code also counts window C (expiry = day 5, inside its closed
interval) and, picking the latest start among A, B, C, returns C's options,
which differ from B's. -/
theorem C2_counterexample :
    halfOpenMatches c2db 1 5 = [c2winA, c2winB] ∧
    (∀ w ∈ halfOpenMatches c2db 1 5, w ≠ c2winB → w.date_start < c2winB.date_start) ∧
    optionsByWindow c2db c2winB.id = [c2optB] ∧
    getCurrentOptions c2db 5 1 = .ok ([c2optC], true) ∧
    ([c2optC] : List PricingOption) ≠ [c2optB] := by
  decide

/-- C2 (amended): the code counts currently valid windows with the closed
interval start ≤ today ≤ expiry at date granularity, not [start, expiry).
For every pass type having two or more non-default pricing windows whose
closed interval contains the query date, `get_current_options_by_pass_type_id`
does not fail: it returns the options of the matching window with the
strictly latest start date and emits the duplicate-window warning. -/
theorem C2_overlapping_windows_latest_start (db : PassDb) (today : ℤ) (pt : ℕ)
    (w : PricingWindow)
    (hpt : pt ∈ db.pass_types)
    (hlen : 2 ≤ (currentNonDefault db pt today).length)
    (hmem : w ∈ currentNonDefault db pt today)
    (hmax : ∀ x ∈ currentNonDefault db pt today,
      x ≠ w → x.date_start < w.date_start) :
    getCurrentOptions db today pt = .ok (optionsByWindow db w.id, true) := by
  have hws : 2 ≤ (windowsFor db pt).length :=
    le_trans hlen (List.length_filter_le _ _)
  obtain ⟨w1, w2, ws, hwseq⟩ : ∃ w1 w2 ws, windowsFor db pt = w1 :: w2 :: ws := by
    rcases hL : windowsFor db pt with _ | ⟨a, _ | ⟨b, t⟩⟩
    · rw [hL] at hws
      simp at hws
    · rw [hL] at hws
      simp at hws
    · exact ⟨a, b, t, rfl⟩
  obtain ⟨c1, c2, cs, hceq⟩ :
      ∃ c1 c2 cs, currentNonDefault db pt today = c1 :: c2 :: cs := by
    rcases hC : currentNonDefault db pt today with _ | ⟨a, _ | ⟨b, t⟩⟩
    · rw [hC] at hlen
      simp at hlen
    · rw [hC] at hlen
      simp at hlen
    · exact ⟨a, b, t, rfl⟩
  have hlast : latestStartAux c1 (c2 :: cs) = w := by
    apply latestStartAux_eq_of_max
    · rw [hceq] at hmem
      exact List.mem_cons.mp hmem
    · intro x hx hne
      apply hmax x _ hne
      rw [hceq]
      rcases hx with h | h
      · exact h ▸ List.mem_cons_self _ _
      · exact List.mem_cons_of_mem _ h
  unfold getCurrentOptions
  rw [if_pos hpt]
  simp only [hwseq, hceq, hlast]

theorem C2_overlapping_windows_latest_start_witness :
    getCurrentOptions c2wdb 5 1 = .ok ([⟨3, "5 days", 5, 20⟩], true) := by
  have h := C2_overlapping_windows_latest_start c2wdb 5 1
    ⟨3, 1, "Spring", 3, some 10⟩ (by decide) (by decide) (by decide) (by decide)
  exact h.trans (by decide)

/-- C3 counterexample: pass type 1 has one pricing window and it is not a
default (its expiry is non-null), so the claim demands a no-default-window
failure; the code instead takes the single-window branch and returns that
window's options without any error — on day 20, even though the window's
interval [0, 10] is long past. -/
theorem C3_counterexample :
    (windowsFor c3db 1).length = 1 ∧
    (∀ w ∈ windowsFor c3db 1, w.date_expiry ≠ none) ∧
    getCurrentOptions c3db 20 1 = .ok ([⟨1, "5 days", 5, 50⟩], false) := by
  decide

/-- C3 (amended): for every pass type that has two or more pricing windows,
none with a null expiry, and no non-default window whose closed interval
contains the query date, `get_current_options_by_pass_type_id` fails with the
does-not-exist error of the default-window lookup, which propagates to the
caller; a pass type with exactly one (non-default) window instead returns
that window's options. -/
theorem C3_no_default_window_error (db : PassDb) (today : ℤ) (pt : ℕ)
    (hpt : pt ∈ db.pass_types)
    (hlen : 2 ≤ (windowsFor db pt).length)
    (hnodef : ∀ w ∈ windowsFor db pt, w.date_expiry ≠ none)
    (hnocur : currentNonDefault db pt today = []) :
    getCurrentOptions db today pt = .error .doesNotExist := by
  obtain ⟨w1, w2, ws, hwseq⟩ : ∃ w1 w2 ws, windowsFor db pt = w1 :: w2 :: ws := by
    rcases hL : windowsFor db pt with _ | ⟨a, _ | ⟨b, t⟩⟩
    · rw [hL] at hlen
      simp at hlen
    · rw [hL] at hlen
      simp at hlen
    · exact ⟨a, b, t, rfl⟩
  have hfil : (windowsFor db pt).filter (fun w => w.date_expiry.isNone) = [] := by
    refine List.filter_eq_nil_iff.mpr fun x hx hcontra => ?_
    exact hnodef x hx (Option.isNone_iff_eq_none.mp hcontra)
  rw [hwseq] at hfil
  unfold getCurrentOptions
  rw [if_pos hpt]
  simp only [hwseq, hnocur, hfil]

theorem C3_no_default_window_error_witness :
    getCurrentOptions c3wdb 15 1 = .error .doesNotExist :=
  C3_no_default_window_error c3wdb 15 1 (by decide) (by decide) (by decide)
    (by decide)

theorem pythonRound_close (q : ℚ) :
    -(1/2) ≤ ((pythonRound q : ℤ) : ℚ) - q ∧ ((pythonRound q : ℤ) : ℚ) - q ≤ 1/2 := by
  have h0 : ((⌊q⌋ : ℤ) : ℚ) ≤ q := Int.floor_le q
  have h1 : q < ((⌊q⌋ : ℤ) : ℚ) + 1 := Int.lt_floor_add_one q
  unfold pythonRound
  split_ifs with ha hb hc <;> push_cast <;> constructor <;> linarith

theorem pythonRound_tie_even (q : ℚ) (h : q - ⌊q⌋ = 1/2) :
    pythonRound q % 2 = 0 := by
  have h1 : ¬ (q - ⌊q⌋ < 1/2) := by
    rw [h]
    exact lt_irrefl _
  have h2 : ¬ ((1:ℚ)/2 < q - ⌊q⌋) := by
    rw [h]
    exact lt_irrefl _
  rw [pythonRound, if_neg h1, if_neg h2]
  by_cases he : ⌊q⌋ % 2 = 0
  · rw [if_pos he]
    exact he
  · rw [if_neg he]
    omega

theorem quantize2_multiple_of_cent (q : ℚ) :
    ∃ n : ℤ, quantize2 q = (n : ℚ) / 100 :=
  ⟨pythonRound (q * 100), rfl⟩

theorem quantize2_close (q : ℚ) : |quantize2 q - q| ≤ 1/200 := by
  have h := pythonRound_close (q * 100)
  rw [quantize2, abs_le]
  constructor <;> [linarith [h.1]; linarith [h.2]]

/-- C8 counterexample: the price after all discounts of `concessionHalfEx` is
5.005 before rounding; the code's `quantize(Decimal("0.00"))` (default
rounding, half-even) yields 5.00, while the claim's round-half-up semantics
demands 5.01. -/
theorem C8_counterexample :
    concessionHalfEx.price_after_voucher_applied = .ok (1001/200) ∧
    concessionHalfEx.price_after_all_discounts = .ok 5 ∧
    roundHalfUp2 (1001/200) = 501/100 ∧
    (5 : ℚ) ≠ 501/100 := by
  have hv : concessionHalfEx.price_after_voucher_applied = .ok (1001/200) := by
    simp only [PassRec.price_after_voucher_applied,
      PassRec.price_after_discount_code_applied,
      PassRec.price_after_concession_applied, concessionHalfEx]
    norm_num
  refine ⟨hv, ?_, ?_, by norm_num⟩
  · rw [PassRec.price_after_all_discounts, hv]
    have hq : quantize2 (1001/200) = 5 := by
      have hfl : ⌊(1001/200 : ℚ) * 100⌋ = 500 := by
        norm_num
      norm_num [quantize2, pythonRound, hfl]
    simp [Except.map, hq]
  · have hfl : ⌊(1001/200 : ℚ) * 100 + 1/2⌋ = 501 := by
      norm_num
    norm_num [roundHalfUp2, hfl]

/-- C8 (amended): the final payable price is the pre-rounding price rounded
to exactly 2 decimal places with round-half-EVEN (banker's) semantics, the
default of Python's `decimal` module: the result is a whole number of cents
within half a cent of the exact value, and an exact half-cent tie rounds to
the even cent (not always up). -/
theorem C8_rounding_half_even (p : PassRec) (q : ℚ)
    (h : p.price_after_voucher_applied = .ok q) :
    p.price_after_all_discounts = .ok (quantize2 q) ∧
    (∃ n : ℤ, quantize2 q = (n : ℚ) / 100) ∧
    |quantize2 q - q| ≤ 1/200 ∧
    (q * 100 - ⌊q * 100⌋ = 1/2 → pythonRound (q * 100) % 2 = 0) := by
  refine ⟨?_, quantize2_multiple_of_cent q, quantize2_close q,
    fun ht => pythonRound_tie_even _ ht⟩
  rw [PassRec.price_after_all_discounts, h]
  rfl

theorem C8_rounding_half_even_witness :
    plainPassEx.price_after_all_discounts = .ok (47/100) := by
  have h := (C8_rounding_half_even plainPassEx (47/100) rfl).1
  rw [h]
  have hfl : ⌊(47/100 : ℚ) * 100⌋ = 47 := by
    norm_num
  norm_num [quantize2, pythonRound, hfl]

/-- C9: for every pass with an attached voucher transaction, evaluating
`price_after_voucher_applied` (and therefore `price_after_all_discounts`,
`gst` and `pro_rata_refund_amount`) raises `AttributeError`, because
`VoucherTransaction` defines no `balance` method; price resolution completes
only for passes with no attached voucher transaction. -/
theorem C9_voucher_balance_attribute_error (p : PassRec) :
    (∀ vt, p.voucher_transaction = some vt →
      p.price_after_voucher_applied = .error .attributeError ∧
      p.price_after_all_discounts = .error .attributeError ∧
      (∀ g : ℚ, p.gst g = .error .attributeError) ∧
      (∀ today : ℤ, p.pro_rata_refund_amount today = .error .attributeError)) ∧
    (p.voucher_transaction = none →
      p.price_after_voucher_applied = .ok p.price_after_discount_code_applied ∧
      p.price_after_all_discounts
        = .ok (quantize2 p.price_after_discount_code_applied)) := by
  constructor
  · intro vt hvt
    have hv : p.price_after_voucher_applied = .error .attributeError := by
      simp [PassRec.price_after_voucher_applied, hvt, voucherTransactionBalance,
        voucherTransactionMethods]
    refine ⟨hv, ?_, fun g => ?_, fun today => ?_⟩
    · simp [PassRec.price_after_all_discounts, Except.map, hv]
    · simp [PassRec.gst, PassRec.price_after_all_discounts, Except.map, hv]
    · simp [PassRec.pro_rata_refund_amount, PassRec.price_after_all_discounts, Except.map, hv]
  · intro hvt
    have hv : p.price_after_voucher_applied
        = .ok p.price_after_discount_code_applied := by
      simp [PassRec.price_after_voucher_applied, hvt]
    exact ⟨hv, by simp [PassRec.price_after_all_discounts, Except.map, hv]⟩

theorem C9_voucher_balance_attribute_error_witness :
    voucherPassEx.price_after_all_discounts = .error .attributeError :=
  (((C9_voucher_balance_attribute_error voucherPassEx).1 ⟨0, 10⟩ rfl)).2.1

end ParkPasses
